import Mathlib

/-!
Verification of the core logic of the deep-research system: the red-team
evaluator's scoring and URL classification, the supervisor control loop,
the sub-researcher tool loop, and the report-cleaning step.

Numbers that the Python code handles as floats are modelled as rationals
(`ℚ`); the arithmetic in the scorer is exact decimal arithmetic, so no
rounding behaviour is lost.  Model calls, HTTP traffic and other effects
are passed in as explicit oracle functions or outcome values.
-/

/-! ## Data model (src/dataclasses.py)

The metric records carry the same fields as the Python dataclasses.
List-valued fields whose elements the scoring logic never inspects
(claim dictionaries, evidence strings) are modelled as lists of strings;
only their lengths matter to the code under verification. -/

/-- Mirrors dataclass `BiasMetrics` (dataclasses.py lines 16-24). -/
structure BiasMetrics where
  one_sided_score : ℚ
  missing_counter_evidence : List String
  confirmation_bias_indicators : List String
  source_diversity_score : ℚ
  quantitative_ratio : ℚ
deriving DecidableEq

/-- The all-defaults record `BiasMetrics()` (field defaults in dataclasses.py). -/
def BiasMetrics.defaultRecord : BiasMetrics :=
  ⟨0, [], [], 0, 0⟩

/-- Mirrors dataclass `SourceQualityMetrics` (dataclasses.py lines 27-38). -/
structure SourceQualityMetrics where
  total_sources : ℕ
  valid_sources : ℕ
  primary_sources : ℕ
  secondary_sources : ℕ
  academic_sources : ℕ
  source_credibility_score : ℚ
  missing_citations : List String
  invalid_sources : List String
deriving DecidableEq

/-- The all-defaults record `SourceQualityMetrics()`. -/
def SourceQualityMetrics.defaultRecord : SourceQualityMetrics :=
  ⟨0, 0, 0, 0, 0, 0, [], []⟩

/-- Mirrors dataclass `ClaimSourceConsistency` (dataclasses.py lines 41-49).
The issue lists hold opaque issue descriptions. -/
structure ClaimSourceConsistency where
  numerical_inconsistencies : List String
  contextual_mismatches : List String
  unverifiable_claims : List String
  verified_claims_count : ℕ
  consistency_score : ℚ
deriving DecidableEq

/-- The all-defaults record `ClaimSourceConsistency()`; note its
`consistency_score` default is `0.0`. -/
def ClaimSourceConsistency.defaultRecord : ClaimSourceConsistency :=
  ⟨[], [], [], 0, 0⟩

/-- The dict returned by `RedTeamEvaluator._verify_claims`:
keys `"unsupported"` and `"missing_counter_evidence"`. -/
structure ClaimsDict where
  unsupported : List String
  missing_counter_evidence : List String
deriving DecidableEq

/-! ## Objectivity scoring (red_team_evaluator.py lines 618-654) -/

/-- Embeds `RedTeamEvaluator._calculate_objectivity_score`
(red_team_evaluator.py lines 618-654), with Python floats as rationals. -/
def _calculate_objectivity_score (bias : BiasMetrics) (sources : SourceQualityMetrics)
    (claims : ClaimsDict) (claim_consistency : ClaimSourceConsistency) : ℚ :=
  let bias_component := (1 - bias.one_sided_score) * 0.35
  let source_component := sources.source_credibility_score * 0.25
  let diversity_component := bias.source_diversity_score * 0.15
  let quantitative_component := bias.quantitative_ratio * 0.1
  let consistency_component := claim_consistency.consistency_score * 0.15
  let unsupported_penalty := min ((claims.unsupported.length : ℚ) * 0.05) 0.15
  let consistency_penalty :=
    min (((claim_consistency.numerical_inconsistencies.length
        + claim_consistency.contextual_mismatches.length : ℕ) : ℚ) * 0.03) 0.15
  let score := (bias_component + source_component + diversity_component
      + quantitative_component + consistency_component)
      * (1 - unsupported_penalty - consistency_penalty)
  max 0 (min 1 score)

/-- The scoring formula exactly as the specification writes it (spec §4.3 step 6),
for comparison with the implementation above. -/
def spec_objectivity_formula (bias : BiasMetrics) (sources : SourceQualityMetrics)
    (claims : ClaimsDict) (claim_consistency : ClaimSourceConsistency) : ℚ :=
  (0.35 * (1 - bias.one_sided_score)
      + 0.25 * sources.source_credibility_score
      + 0.15 * bias.source_diversity_score
      + 0.10 * bias.quantitative_ratio
      + 0.15 * claim_consistency.consistency_score)
    * (1 - min (0.05 * (claims.unsupported.length : ℚ)) 0.15
        - min (0.03 * ((claim_consistency.numerical_inconsistencies.length : ℚ)
            + (claim_consistency.contextual_mismatches.length : ℚ))) 0.15)

/-- C1: the computed objectivity score equals the spec's weighted formula with
its two capped penalties, clamped to [0,1]; consequently it always lies in
[0,1], for every input combination. -/
theorem calculate_objectivity_score_correct (b : BiasMetrics) (s : SourceQualityMetrics)
    (c : ClaimsDict) (cc : ClaimSourceConsistency) :
    _calculate_objectivity_score b s c cc
        = max 0 (min 1 (spec_objectivity_formula b s c cc))
      ∧ 0 ≤ _calculate_objectivity_score b s c cc
      ∧ _calculate_objectivity_score b s c cc ≤ 1 := by
  refine ⟨?_, ?_, ?_⟩
  · unfold _calculate_objectivity_score spec_objectivity_formula
    have h1 : ((c.unsupported.length : ℚ) * 0.05) = 0.05 * (c.unsupported.length : ℚ) :=
      mul_comm _ _
    have h2 : (((cc.numerical_inconsistencies.length
          + cc.contextual_mismatches.length : ℕ) : ℚ) * 0.03)
        = 0.03 * ((cc.numerical_inconsistencies.length : ℚ)
            + (cc.contextual_mismatches.length : ℚ)) := by
      push_cast
      ring
    simp only [h1, h2]
    congr 1
    congr 1
    ring
  · exact le_max_left 0 _
  · exact max_le (by norm_num) (min_le_left 1 _)

/-! ## URL validation (red_team_evaluator.py lines 41-143)

The HTTP layer is modelled by an `HttpOutcome`: either a response carrying a
status code and (optionally) its body text, or one of the failure modes the
Python code catches (`asyncio.TimeoutError`, `aiohttp.ClientError`, any other
exception).  A body of `none` models `response.text()` itself raising. -/

/-- Bool test: `needle` occurs as a contiguous run inside `hay`
(Python's `needle in hay` on strings). -/
def chars_contain (hay needle : List Char) : Bool :=
  hay.tails.any (fun t => needle.isPrefixOf t)

/-- Python `needle in hay` for strings. -/
def str_contains (hay needle : String) : Bool :=
  chars_contain hay.data needle.data

/-- Python `s[:n]` (slicing by characters). -/
def str_take (s : String) (n : ℕ) : String :=
  String.mk (s.data.take n)

/-- Python `s.lower()` (the markers and statuses compared are ASCII). -/
def str_lower (s : String) : String :=
  String.mk (s.data.map Char.toLower)

/-- The error-page markers of `_check_error_page` (red_team_evaluator.py lines 53-66). -/
def error_markers : List String :=
  ["<h1>error", "<h2>error", "error</h1>", "error</h2>", "page not found",
   "not found</h1>", "not found</h2>", "<title>404", "<h1>404", "<h2>404",
   "bad request", "invalid request"]

/-- Embeds `_check_error_page` (red_team_evaluator.py lines 50-67). -/
def _check_error_page (text_sample : String) : Bool :=
  error_markers.any (fun marker => str_contains (str_lower text_sample) marker)

/-- Embeds `_is_valid_status_code` (red_team_evaluator.py lines 70-78). -/
def _is_valid_status_code (status_code : ℕ) : Bool :=
  if 200 ≤ status_code ∧ status_code < 300 then true
  else if status_code < 400 then true
  else if status_code = 401 ∨ status_code = 403 ∨ status_code = 429 then true
  else false

/-- Embeds `_check_response_status` (red_team_evaluator.py lines 81-94).
`body = none` models the `response.text()` call raising (the `except` path,
which leaves the 2xx response valid). -/
def _check_response_status (status : ℕ) (body : Option String) : Bool × ℕ :=
  if 200 ≤ status ∧ status < 300 then
    match body with
    | some t => if _check_error_page (str_take t 4096) then (false, status)
                else (true, status)
    | none => (true, status)
  else if _is_valid_status_code status then (true, status)
  else (false, status)

/-- Outcome of one HTTP GET, as distinguished by `_make_url_request`. -/
inductive HttpOutcome where
  | response (status : ℕ) (body : Option String)
  | timeout
  | client_error
  | other_error
deriving DecidableEq

/-- Embeds `_make_url_request` (red_team_evaluator.py lines 97-115): the three
`except` arms each return `(False, 0)`. -/
def _make_url_request : HttpOutcome → Bool × ℕ
  | .response s b => _check_response_status s b
  | .timeout => (false, 0)
  | .client_error => (false, 0)
  | .other_error => (false, 0)

/-- The classification exactly as the claim (spec §4.3 step 3) words it:
valid on [200,300) unless the first 4KB of body matches the error heuristic,
valid on [300,400) and on {401,403,429}, invalid on any other status. -/
def spec_status_classification (status : ℕ) (body : Option String) : Bool :=
  if 200 ≤ status ∧ status < 300 then
    !(_check_error_page (str_take (body.getD "") 4096))
  else if 300 ≤ status ∧ status < 400 then true
  else if status = 401 ∨ status = 403 ∨ status = 429 then true
  else false

/-! ### Retry wrapper and entry point (red_team_evaluator.py lines 118-143) -/

/-- The attempt loop of `_validate_url_with_retry` (red_team_evaluator.py lines
118-132), unrolled on the number of retries still allowed: the result of the
current attempt is returned if it is valid or no retries remain.  `netF` gives
the network outcome of each numbered attempt. -/
def _validate_url_retry_aux (netF : ℕ → HttpOutcome) : ℕ → ℕ → Bool × ℕ
  | attempt, 0 => _make_url_request (netF attempt)
  | attempt, remaining + 1 =>
    let p := _make_url_request (netF attempt)
    if p.1 then p else _validate_url_retry_aux netF (attempt + 1) remaining

/-- Embeds `_validate_url_with_retry` (red_team_evaluator.py lines 118-132). -/
def _validate_url_with_retry (netF : ℕ → HttpOutcome) (max_retries : ℕ) : Bool × ℕ :=
  _validate_url_retry_aux netF 0 max_retries

/-- Python `url.rstrip(".,;:!?)")`: drop trailing characters of that set. -/
def rstrip_punct (s : String) : String :=
  String.mk ((s.data.reverse.dropWhile
    (fun c => c = '.' ∨ c = ',' ∨ c = ';' ∨ c = ':' ∨ c = '!' ∨ c = '?' ∨ c = ')')).reverse)

/-- A character of `urllib.parse`'s `scheme_chars` (ASCII letters, digits, `+-.`). -/
def is_scheme_char (c : Char) : Bool :=
  c.isAlpha ∨ c.isDigit ∨ c = '+' ∨ c = '-' ∨ c = '.'

/-- The scheme-splitting step of `urllib.parse.urlsplit`: if the text up to the
first `:` is a nonempty run of scheme characters starting with an ASCII letter,
it is the (lowercased) scheme and the rest follows the colon; otherwise there
is no scheme.  (WHATWG control/space stripping is not modelled; report URLs
contain none of those characters.) -/
def _split_scheme (cs : List Char) : List Char × List Char :=
  match cs.findIdx? (fun c => c = ':') with
  | none => ([], cs)
  | some i =>
    if 0 < i then
      let head := cs.take i
      match head with
      | c0 :: _ =>
        if c0.isAlpha ∧ head.all is_scheme_char then
          (head.map Char.toLower, cs.drop (i + 1))
        else ([], cs)
      | [] => ([], cs)
    else ([], cs)

/-- The netloc-splitting step of `urllib.parse.urlsplit` (`_splitnetloc`): after
a leading `//`, the netloc runs up to the first `/`, `?` or `#`. -/
def _split_netloc (cs : List Char) : List Char :=
  match cs with
  | '/' :: '/' :: rest => rest.takeWhile (fun c => ¬(c = '/' ∨ c = '?' ∨ c = '#'))
  | _ => []

/-- The `(scheme, netloc)` pair `urlparse` gives `validate_url`. -/
def urlparse_scheme_netloc (url : String) : String × String :=
  let (scheme, rest) := _split_scheme url.data
  (String.mk scheme, String.mk (_split_netloc rest))

/-- The pre-request control flow of `validate_url` (red_team_evaluator.py lines
135-143): either the immediate `(False, 0)` rejection, or the request path on
the cleaned URL. -/
inductive ValidateFront where
  | rejected
  | request (clean_url : String)
deriving DecidableEq

/-- The guard of `validate_url`: reject when the parsed scheme or netloc of the
punctuation-stripped URL is empty. -/
def validate_url_front (url : String) : ValidateFront :=
  if (urlparse_scheme_netloc (rstrip_punct url)).1 = ""
      ∨ (urlparse_scheme_netloc (rstrip_punct url)).2 = "" then .rejected
  else .request (rstrip_punct url)

/-- Embeds `validate_url` (red_team_evaluator.py lines 135-143); `netF clean n`
is the network outcome of attempt `n` against the cleaned URL. -/
def validate_url (netF : String → ℕ → HttpOutcome) (max_retries : ℕ)
    (url : String) : Bool × ℕ :=
  match validate_url_front url with
  | .rejected => (false, 0)
  | .request clean => _validate_url_with_retry (netF clean) max_retries

/-- The empty body sample matches no error marker. -/
theorem _check_error_page_empty : _check_error_page (str_take "" 4096) = false := by
  decide

/-- `_is_valid_status_code` accepts exactly the statuses below 400 together
with 401, 403 and 429. -/
theorem _is_valid_status_code_iff (s : ℕ) :
    _is_valid_status_code s = true ↔ s < 400 ∨ s = 401 ∨ s = 403 ∨ s = 429 := by
  unfold _is_valid_status_code
  split_ifs with h1 h2 h3 <;> simp <;> omega

/-- C5 (amended): the response classification. Every status below 400 — including
informational statuses below 200 — is valid, except a [200,300) status whose
first 4KB of body matches the error heuristic; 401, 403 and 429 are valid; any
other status, a timeout, or a transport exception is invalid, and the reported
status accompanies a response while failures report status 0. -/
theorem check_response_status_classification :
    (∀ (s : ℕ) (b : Option String),
        (_check_response_status s b).2 = s
          ∧ ((_check_response_status s b).1 = true ↔
              (s < 400 ∧ ¬(200 ≤ s ∧ s < 300
                    ∧ _check_error_page (str_take (b.getD "") 4096) = true))
                ∨ s = 401 ∨ s = 403 ∨ s = 429))
      ∧ _make_url_request .timeout = (false, 0)
      ∧ _make_url_request .client_error = (false, 0)
      ∧ _make_url_request .other_error = (false, 0) := by
  refine ⟨?_, rfl, rfl, rfl⟩
  intro s b
  constructor
  · rcases b with _ | t <;> simp only [_check_response_status] <;> split_ifs <;> rfl
  · by_cases h1 : 200 ≤ s ∧ s < 300
    · rcases b with _ | t
      · have e : _check_response_status s none = (true, s) := by
          unfold _check_response_status
          rw [if_pos h1]
        rw [e]
        refine iff_of_true rfl (Or.inl ⟨by omega, fun hc => ?_⟩)
        rw [Option.getD_none, _check_error_page_empty] at hc
        exact Bool.false_ne_true hc.2.2
      · by_cases hcep : _check_error_page (str_take t 4096) = true
        · have e : _check_response_status s (some t) = (false, s) := by
            unfold _check_response_status
            rw [if_pos h1]
            show (if _check_error_page (str_take t 4096) = true
                then ((false, s) : Bool × ℕ) else (true, s)) = (false, s)
            rw [if_pos hcep]
          rw [e]
          refine iff_of_false (by simp) ?_
          rintro (⟨_, hni⟩ | h | h | h)
          · exact hni ⟨h1.1, h1.2, by rwa [Option.getD_some]⟩
          all_goals omega
        · have e : _check_response_status s (some t) = (true, s) := by
            unfold _check_response_status
            rw [if_pos h1]
            show (if _check_error_page (str_take t 4096) = true
                then ((false, s) : Bool × ℕ) else (true, s)) = (true, s)
            rw [if_neg hcep]
          rw [e]
          refine iff_of_true rfl (Or.inl ⟨by omega, fun hc => ?_⟩)
          rw [Option.getD_some] at hc
          exact hcep hc.2.2
    · have e : _check_response_status s b
          = (if _is_valid_status_code s = true then (true, s) else (false, s)) := by
        unfold _check_response_status
        rw [if_neg h1]
      rw [e]
      by_cases h2 : _is_valid_status_code s = true
      · rw [if_pos h2]
        have hv := (_is_valid_status_code_iff s).mp h2
        refine iff_of_true rfl ?_
        rcases hv with h | h | h | h
        · exact Or.inl ⟨h, fun hc => h1 ⟨hc.1, hc.2.1⟩⟩
        · exact Or.inr (Or.inl h)
        · exact Or.inr (Or.inr (Or.inl h))
        · exact Or.inr (Or.inr (Or.inr h))
      · rw [if_neg h2]
        have hv : ¬(s < 400 ∨ s = 401 ∨ s = 403 ∨ s = 429) :=
          fun h => h2 ((_is_valid_status_code_iff s).mpr h)
        refine iff_of_false (by simp) ?_
        rintro (⟨h400, _⟩ | h | h | h)
        · exact hv (Or.inl h400)
        · exact hv (Or.inr (Or.inl h))
        · exact hv (Or.inr (Or.inr (Or.inl h)))
        · exact hv (Or.inr (Or.inr (Or.inr h)))

/-- C5 counterexample: an informational status such as 100 is classified valid
by the code, while the claim's classification rule calls any status outside
[200,400) ∪ {401,403,429} invalid. -/
theorem check_response_status_claim_counterexample :
    (_make_url_request (.response 100 none)).1 = true
      ∧ spec_status_classification 100 none = false := by
  constructor <;> decide

/-- C9 (amended): `validate_url` rejects immediately with `(False, 0)` and
issues no request exactly when the cleaned URL lacks a scheme **or** lacks a
host; otherwise it proceeds to the retrying request loop on the cleaned URL. -/
theorem validate_url_immediate_reject (netF : String → ℕ → HttpOutcome)
    (max_retries : ℕ) (url : String) :
    (validate_url_front url = .rejected ↔
        (urlparse_scheme_netloc (rstrip_punct url)).1 = ""
          ∨ (urlparse_scheme_netloc (rstrip_punct url)).2 = "")
      ∧ (validate_url_front url = .rejected →
          validate_url netF max_retries url = (false, 0))
      ∧ (∀ clean, validate_url_front url = .request clean →
          clean = rstrip_punct url
            ∧ validate_url netF max_retries url
                = _validate_url_with_retry (netF clean) max_retries) := by
  refine ⟨?_, ?_, ?_⟩
  · unfold validate_url_front
    split_ifs with h
    · simpa using h
    · simpa using h
  · intro h
    unfold validate_url
    rw [h]
  · intro clean h
    unfold validate_url_front at h
    split_ifs at h with hc
    simp only [ValidateFront.request.injEq] at h
    refine ⟨h.symm, ?_⟩
    rw [← h]
    unfold validate_url validate_url_front
    rw [if_neg hc]

/-- C9 counterexample: `"//example.com/x"` has a host but no scheme, so per the
claim ("lacks **both** a scheme and a host") it should not be rejected
immediately — yet the code rejects it. -/
theorem validate_url_reject_claim_counterexample :
    validate_url_front "//example.com/x" = .rejected
      ∧ ¬((urlparse_scheme_netloc (rstrip_punct "//example.com/x")).1 = ""
          ∧ (urlparse_scheme_netloc (rstrip_punct "//example.com/x")).2 = "") := by
  constructor <;> decide

/-- Witness for C9's theorem: a bare domain (no scheme, no netloc after
parsing) is rejected immediately with `(False, 0)`. -/
theorem validate_url_immediate_reject_witness :
    validate_url (fun _ _ => .timeout) 2 "example.com" = (false, 0) := by
  have h := validate_url_immediate_reject (fun _ _ => .timeout) 2 "example.com"
  exact h.2.1 (h.1.mpr (Or.inl (by decide)))

/-! ## The three parallel audits and the consistency audit
(red_team_evaluator.py lines 269-277, 341-405, 497-616)

`_parse_json_response` returns `None` on a parse failure, and each audit also
treats a parsed-but-falsy (empty) object as a failure (`if analysis:`).  The
parsed JSON object is modelled as a record of `Option` fields, one per
`analysis.get(key, default)` access; `none` models a missing key. -/

/-- A parsed bias-audit JSON object; each field `none` when the key is absent
(`analysis.get(key, default)` in `_analyze_bias`). -/
structure BiasAnalysis where
  one_sided_score : Option ℚ
  missing_counter_evidence : Option (List String)
  confirmation_bias_indicators : Option (List String)
  source_diversity_score : Option ℚ
  quantitative_ratio : Option ℚ

/-- Embeds `RedTeamEvaluator._analyze_bias` (red_team_evaluator.py lines
497-522) as a function of the parse result: `none` is the parse-failure (or
falsy-object) path. -/
def _analyze_bias : Option BiasAnalysis → BiasMetrics
  | some a =>
    ⟨a.one_sided_score.getD 0.5, a.missing_counter_evidence.getD [],
     a.confirmation_bias_indicators.getD [], a.source_diversity_score.getD 0.5,
     a.quantitative_ratio.getD 0.5⟩
  | none => BiasMetrics.defaultRecord

/-- A parsed source-audit JSON object (`_parse_source_analysis_response`'s
`analysis.get` accesses). -/
structure SourceAnalysis where
  total_sources : Option ℕ
  primary_sources : Option ℕ
  secondary_sources : Option ℕ
  academic_sources : Option ℕ
  source_credibility_score : Option ℚ
  missing_citations : Option (List String)

/-- Embeds `RedTeamEvaluator._parse_source_analysis_response`
(red_team_evaluator.py lines 530-555). -/
def _parse_source_analysis_response (a : SourceAnalysis)
    (sources valid_sources invalid_sources : List String) : SourceQualityMetrics :=
  ⟨a.total_sources.getD sources.length, valid_sources.length,
   a.primary_sources.getD 0, a.secondary_sources.getD 0, a.academic_sources.getD 0,
   a.source_credibility_score.getD 0.5, a.missing_citations.getD [], invalid_sources⟩

/-- Embeds the response handling of `RedTeamEvaluator._analyze_sources`
(red_team_evaluator.py lines 557-589): `sources`, and the validation split
into `valid_sources`/`invalid_sources`, are those the method computed before
the model call; `analysis = none` is the parse-failure path, which returns
`SourceQualityMetrics(total_sources=len(sources), source_credibility_score=0.5)`. -/
def _analyze_sources (sources valid_sources invalid_sources : List String) :
    Option SourceAnalysis → SourceQualityMetrics
  | some a => _parse_source_analysis_response a sources valid_sources invalid_sources
  | none => ⟨sources.length, 0, 0, 0, 0, 0.5, [], []⟩

/-- A parsed claim-audit JSON object (`_verify_claims`'s `parsed.get` accesses;
item normalization to strings is the identity here since items are strings). -/
structure ClaimsParsed where
  unsupported : Option (List String)
  missing_counter_evidence : Option (List String)

/-- Embeds the response handling of `RedTeamEvaluator._verify_claims`
(red_team_evaluator.py lines 591-616). -/
def _verify_claims : Option ClaimsParsed → ClaimsDict
  | some p => ⟨p.unsupported.getD [], p.missing_counter_evidence.getD []⟩
  | none => ⟨[], []⟩

/-- A parsed claim-source-consistency JSON object
(`_verify_claim_source_consistency`'s `analysis.get` accesses). -/
structure ConsistencyAnalysis where
  numerical_inconsistencies : Option (List String)
  contextual_mismatches : Option (List String)
  unverifiable_claims : Option (List String)
  verified_claims_count : Option ℕ

/-- Embeds the pure result computation of
`RedTeamEvaluator._verify_claim_source_consistency` (red_team_evaluator.py
lines 341-405): given the fetched citation-number→content map and the parse
result of the model response.  An empty content map returns the default record
before any model call; a parse failure (or falsy object) also returns the
default record. -/
def _verify_claim_source_consistency (source_content_map : List (ℕ × String))
    (analysis : Option ConsistencyAnalysis) : ClaimSourceConsistency :=
  if source_content_map.isEmpty then ClaimSourceConsistency.defaultRecord
  else
    match analysis with
    | some a =>
      let numerical := a.numerical_inconsistencies.getD []
      let contextual := a.contextual_mismatches.getD []
      let total_issues := numerical.length + contextual.length
      let verified_count := a.verified_claims_count.getD 0
      let total_claims := verified_count + total_issues
      let consistency_score : ℚ :=
        if 0 < total_claims then (verified_count : ℚ) / (total_claims : ℚ) else 1
      ⟨numerical, contextual, a.unverifiable_claims.getD [], verified_count,
       consistency_score⟩
    | none => ClaimSourceConsistency.defaultRecord

/-- C6 (amended): the consistency score is `verified / (verified + flagged)`
when the audit response parses and at least one claim was considered, `1.0`
when it parses with zero claims considered — but the **default `0.0`** (not
`1.0`) when no source content was fetched or the response could not be
parsed. -/
theorem verify_claim_source_consistency_score
    (source_content_map : List (ℕ × String)) (a : ConsistencyAnalysis) :
    (_verify_claim_source_consistency [] (some a) = ClaimSourceConsistency.defaultRecord
      ∧ _verify_claim_source_consistency source_content_map none
          = ClaimSourceConsistency.defaultRecord
      ∧ ClaimSourceConsistency.defaultRecord.consistency_score = 0)
    ∧ (source_content_map ≠ [] →
        (_verify_claim_source_consistency source_content_map (some a)).consistency_score
          = (if 0 < (a.verified_claims_count.getD 0)
                + ((a.numerical_inconsistencies.getD []).length
                  + (a.contextual_mismatches.getD []).length) then
              ((a.verified_claims_count.getD 0 : ℚ) /
                ((a.verified_claims_count.getD 0 : ℚ)
                  + ((a.numerical_inconsistencies.getD []).length
                    + (a.contextual_mismatches.getD []).length : ℕ)))
            else 1)) := by
  constructor
  · refine ⟨rfl, ?_, rfl⟩
    unfold _verify_claim_source_consistency
    split_ifs <;> rfl
  · intro hne
    unfold _verify_claim_source_consistency
    rw [if_neg (by simpa [List.isEmpty_iff] using hne)]
    simp only []
    split_ifs with h
    · push_cast
      rfl
    · rfl

/-- C6 counterexample: with no fetched source content there are no claims to
check, yet the returned consistency score is the default `0`, not `1`. -/
theorem verify_claim_source_consistency_counterexample :
    (_verify_claim_source_consistency [] none).consistency_score = 0
      ∧ ((_verify_claim_source_consistency [] none).consistency_score ≠ 1) := by
  constructor <;> decide

/-- Witness for C6's theorem at a concrete nonempty content map and a parsed
response with 3 verified claims and 1 flagged issue. -/
theorem verify_claim_source_consistency_score_witness :
    (_verify_claim_source_consistency [(1, "content")]
        (some ⟨some ["issue"], some [], some [], some 3⟩)).consistency_score
      = 3 / 4 := by
  have h := (verify_claim_source_consistency_score [(1, "content")]
    ⟨some ["issue"], some [], some [], some 3⟩).2 (by simp)
  rw [h]
  norm_num

/-- C10 (amended): on a JSON parse failure the bias audit and the claim audit
return their all-defaults records, while the source audit returns a record
that differs from the all-defaults one: `total_sources` is the extracted
source count and `source_credibility_score` is `0.5` (its default is `0.0`);
its remaining fields are defaults.  None of the three raises. -/
theorem audit_parse_failure_defaults (sources valid_sources invalid_sources : List String) :
    _analyze_bias none = BiasMetrics.defaultRecord
      ∧ _verify_claims none = ⟨[], []⟩
      ∧ _analyze_sources sources valid_sources invalid_sources none
          = ⟨sources.length, 0, 0, 0, 0, 0.5, [], []⟩ :=
  ⟨rfl, rfl, rfl⟩

/-- C10 counterexample: with one extracted source, the source audit's
parse-failure record is not the all-defaults `SourceQualityMetrics` record —
its total-source count is 1 and its credibility score 0.5, against defaults
0 and 0.0. -/
theorem audit_parse_failure_defaults_counterexample :
    _analyze_sources ["http://x.example"] [] ["http://x.example"] none
        ≠ SourceQualityMetrics.defaultRecord
      ∧ (_analyze_sources ["http://x.example"] [] ["http://x.example"] none).total_sources = 1
      ∧ (_analyze_sources ["http://x.example"] [] ["http://x.example"]
          none).source_credibility_score = 0.5 := by
  refine ⟨?_, rfl, rfl⟩
  intro h
  have := congrArg SourceQualityMetrics.total_sources h
  simp only [show (_analyze_sources ["http://x.example"] [] ["http://x.example"]
      none).total_sources = 1 from rfl] at this
  exact absurd this (by decide)

/-! ## Research supervisor (src/multi_agent_supervisor.py)

The LangGraph nodes are embedded as pure state transformers.  The language
model's decision is an oracle `decideF` returning the AI message's content and
tool calls; `think_tool.invoke`, the researcher sub-graph and
`refine_draft_report.invoke` (all defined outside this repository's core
files) are oracles `thinkF`, `researchF`, `refineF`.  An unhandled exception
inside the dispatch `try:` block is the boolean `dispatch_raises`.  The
`supervisor_messages` and `raw_notes` channels append (the code comments and
spec fix append semantics); `research_iterations` and `draft_report` are
replaced by their updated values. -/

/-- One tool call of a decision message: `{"name": ..., "args": ..., "id": ...}`.
`args` carries the one string payload the supervisor/researcher code reads
(`research_topic` for `ConductResearch`, the reflection text for `think_tool`,
the query for `tavily_search`). -/
structure ToolCall where
  name : String
  args : String
  id : String
deriving DecidableEq

/-- A message of the supervisor history: an AI decision (with tool calls), a
tool result, a human or a system message. -/
inductive SMessage where
  | ai (content : String) (tool_calls : List ToolCall)
  | tool (content : String) (name : String) (tool_call_id : String)
  | human (content : String)
  | system (content : String)
deriving DecidableEq

/-- Embeds `get_notes_from_tool_calls` (multi_agent_supervisor.py lines 40-57):
the contents of all ToolMessages in the history, in order. -/
def get_notes_from_tool_calls (messages : List SMessage) : List String :=
  messages.filterMap fun m =>
    match m with
    | .tool content _ _ => some content
    | _ => none

/-- `max_researcher_iterations` (multi_agent_supervisor.py lines 89-91). -/
def max_researcher_iterations : ℕ := 15

/-- Embeds `_check_exit_criteria` (multi_agent_supervisor.py lines 153-163),
as a function of the latest decision's tool-call list. -/
def _check_exit_criteria (research_iterations : ℕ) (tool_calls : List ToolCall) : Bool :=
  let exceeded_iterations := decide (research_iterations ≥ max_researcher_iterations)
  let no_tool_calls := tool_calls.isEmpty
  let research_complete := tool_calls.any fun tc => tc.name == "ResearchComplete"
  exceeded_iterations || no_tool_calls || research_complete

/-- Embeds `_categorize_tool_calls` (multi_agent_supervisor.py lines 166-171). -/
def _categorize_tool_calls (tool_calls : List ToolCall) :
    List ToolCall × List ToolCall × List ToolCall :=
  (tool_calls.filter fun tc => tc.name == "think_tool",
   tool_calls.filter fun tc => tc.name == "ConductResearch",
   tool_calls.filter fun tc => tc.name == "refine_draft_report")

/-- Embeds `_execute_think_tools` (multi_agent_supervisor.py lines 174-186);
`thinkF` is `think_tool.invoke` on the call's args. -/
def _execute_think_tools (thinkF : String → String)
    (think_tool_calls : List ToolCall) : List SMessage :=
  think_tool_calls.map fun tc => .tool (thinkF tc.args) tc.name tc.id

/-- What one researcher sub-graph invocation returns to the supervisor
(`result.get("compressed_research", ...)` and `result.get("raw_notes", [])`). -/
structure ResearchResult where
  compressed_research : Option String
  raw_notes : List String

/-- Embeds `_execute_research_calls` (multi_agent_supervisor.py lines 189-222):
one researcher per `ConductResearch` call, seeded with that call's topic;
returns the tool messages and the newline-joined raw notes of each result. -/
def _execute_research_calls (researchF : String → ResearchResult)
    (conduct_research_calls : List ToolCall) : List SMessage × List String :=
  (conduct_research_calls.map fun tc =>
      .tool ((researchF tc.args).compressed_research.getD
        "Error synthesizing research report") tc.name tc.id,
   conduct_research_calls.map fun tc =>
      String.intercalate "\n" (researchF tc.args).raw_notes)

/-- Embeds `_execute_refine_report` (multi_agent_supervisor.py lines 225-251):
`refineF` is `refine_draft_report.invoke` on (brief, findings, draft). -/
def _execute_refine_report (refineF : String → String → String → String)
    (refine_report_calls : List ToolCall) (supervisor_messages : List SMessage)
    (research_brief draft_report : String) : List SMessage × String :=
  if refine_report_calls.isEmpty then ([], "")
  else
    let findings := String.intercalate "\n" (get_notes_from_tool_calls supervisor_messages)
    let new_draft := refineF research_brief findings draft_report
    (refine_report_calls.map fun tc => .tool new_draft tc.name tc.id, new_draft)

/-- The supervisor graph state (`SupervisorState`): message history, iteration
count, brief, draft, notes and raw notes. -/
structure SupervisorState where
  supervisor_messages : List SMessage
  research_iterations : ℕ
  research_brief : String
  draft_report : String
  notes : List String
  raw_notes : List String
deriving DecidableEq

/-- The `Command` a node returns: go to `END` with final notes and brief, or
back to the `supervisor` node carrying the new tool messages, raw notes and
(for refine calls) the new draft. -/
inductive SupCommand where
  | toEnd (notes : List String) (research_brief : String)
  | toSupervisor (tool_messages : List SMessage) (raw_notes : List String)
      (draft_report : Option String)
deriving DecidableEq

/-- Embeds `supervisor_tools` (multi_agent_supervisor.py lines 254-298).
`none` models the unhandled crash outside the `try:` block (empty history, or
a latest message with no `tool_calls` attribute); `dispatch_raises` models an
exception inside the `try:` block, answered by the `except:` exit. -/
def supervisor_tools (thinkF : String → String) (researchF : String → ResearchResult)
    (refineF : String → String → String → String) (dispatch_raises : Bool)
    (state : SupervisorState) : Option SupCommand :=
  match state.supervisor_messages.getLast? with
  | none => none
  | some (.tool _ _ _) => none
  | some (.human _) => none
  | some (.system _) => none
  | some (.ai _ tool_calls) =>
    if _check_exit_criteria state.research_iterations tool_calls then
      some (.toEnd (get_notes_from_tool_calls state.supervisor_messages)
        state.research_brief)
    else if dispatch_raises then
      some (.toEnd (get_notes_from_tool_calls state.supervisor_messages)
        state.research_brief)
    else
      let cats := _categorize_tool_calls tool_calls
      let think_messages := _execute_think_tools thinkF cats.1
      let research := _execute_research_calls researchF cats.2.1
      let refine := _execute_refine_report refineF cats.2.2 state.supervisor_messages
        state.research_brief state.draft_report
      some (.toSupervisor (think_messages ++ research.1 ++ refine.1) research.2
        (if cats.2.2.isEmpty then none else some refine.2))

/-- Embeds the `supervisor` node (multi_agent_supervisor.py lines 100-150):
append the decision message, increment `research_iterations` by one.
`decideF` gives the model response (content, tool calls) for the state. -/
def supervisor_step (decideF : SupervisorState → String × List ToolCall)
    (state : SupervisorState) : SupervisorState :=
  { state with
    supervisor_messages :=
      state.supervisor_messages ++ [.ai (decideF state).1 (decideF state).2],
    research_iterations := state.research_iterations + 1 }

/-- Applying a `toSupervisor` command's update to the state (LangGraph merge:
messages and raw notes append, the draft is replaced when present). -/
def apply_supervisor_update (state : SupervisorState) (tool_messages : List SMessage)
    (raw : List String) (draft : Option String) : SupervisorState :=
  { state with
    supervisor_messages := state.supervisor_messages ++ tool_messages,
    raw_notes := state.raw_notes ++ raw,
    draft_report := draft.getD state.draft_report }

/-- The supervisor loop `supervisor → supervisor_tools → supervisor → …`,
with `fuel` bounding the number of decision steps taken; `none` when fuel
runs out (or on the unmodelled crash, which cannot occur here since every
decision appends an AI message).  `raisesF` tells whether dispatch raises in
the given state. -/
def run_supervisor (thinkF : String → String) (researchF : String → ResearchResult)
    (refineF : String → String → String → String)
    (decideF : SupervisorState → String × List ToolCall)
    (raisesF : SupervisorState → Bool) :
    ℕ → SupervisorState → Option (List String × String)
  | 0, _ => none
  | fuel + 1, state =>
    let state1 := supervisor_step decideF state
    match supervisor_tools thinkF researchF refineF (raisesF state1) state1 with
    | some (.toEnd notes brief) => some (notes, brief)
    | some (.toSupervisor tool_messages raw draft) =>
      run_supervisor thinkF researchF refineF decideF raisesF fuel
        (apply_supervisor_update state1 tool_messages raw draft)
    | none => none

/-- The exit criteria in propositional form: iteration budget reached, no tool
calls, or an explicit `ResearchComplete` call. -/
theorem _check_exit_criteria_iff (i : ℕ) (tcs : List ToolCall) :
    _check_exit_criteria i tcs = true ↔
      max_researcher_iterations ≤ i ∨ tcs = []
        ∨ (tcs.any fun tc => tc.name == "ResearchComplete") = true := by
  unfold _check_exit_criteria
  simp [List.isEmpty_iff, ge_iff_le]
  tauto

/-- Unfolding `supervisor_tools` when the latest history message is an AI
decision with tool calls `tcs`. -/
theorem supervisor_tools_ai_eq (thinkF : String → String)
    (researchF : String → ResearchResult) (refineF : String → String → String → String)
    (dr : Bool) (state : SupervisorState) (c : String) (tcs : List ToolCall)
    (hlast : state.supervisor_messages.getLast? = some (.ai c tcs)) :
    supervisor_tools thinkF researchF refineF dr state =
      if _check_exit_criteria state.research_iterations tcs = true then
        some (.toEnd (get_notes_from_tool_calls state.supervisor_messages)
          state.research_brief)
      else if dr = true then
        some (.toEnd (get_notes_from_tool_calls state.supervisor_messages)
          state.research_brief)
      else
        some (.toSupervisor
          (_execute_think_tools thinkF (_categorize_tool_calls tcs).1
            ++ (_execute_research_calls researchF (_categorize_tool_calls tcs).2.1).1
            ++ (_execute_refine_report refineF (_categorize_tool_calls tcs).2.2
                state.supervisor_messages state.research_brief state.draft_report).1)
          (_execute_research_calls researchF (_categorize_tool_calls tcs).2.1).2
          (if (_categorize_tool_calls tcs).2.2.isEmpty then none
           else some (_execute_refine_report refineF (_categorize_tool_calls tcs).2.2
              state.supervisor_messages state.research_brief state.draft_report).2)) := by
  unfold supervisor_tools
  rw [hlast]

/-- C2: with no dispatch exception, the tool-execution step ends the run —
returning the notes extracted from the history and the research brief — if
and only if the iteration count has reached the maximum (15), the latest
decision issued zero tool calls, or it included a `ResearchComplete` call;
otherwise the pending calls are dispatched (reflection, research, refine, in
categorization order) and control returns to the supervisor decision node. -/
theorem supervisor_tools_exit_iff (thinkF : String → String)
    (researchF : String → ResearchResult) (refineF : String → String → String → String)
    (state : SupervisorState) (c : String) (tcs : List ToolCall)
    (hlast : state.supervisor_messages.getLast? = some (.ai c tcs)) :
    (supervisor_tools thinkF researchF refineF false state
        = some (.toEnd (get_notes_from_tool_calls state.supervisor_messages)
            state.research_brief)
      ↔ (max_researcher_iterations ≤ state.research_iterations ∨ tcs = []
          ∨ (tcs.any fun tc => tc.name == "ResearchComplete") = true))
    ∧ (¬(max_researcher_iterations ≤ state.research_iterations ∨ tcs = []
          ∨ (tcs.any fun tc => tc.name == "ResearchComplete") = true) →
        supervisor_tools thinkF researchF refineF false state
          = some (.toSupervisor
              (_execute_think_tools thinkF (tcs.filter fun tc => tc.name == "think_tool")
                ++ (_execute_research_calls researchF
                    (tcs.filter fun tc => tc.name == "ConductResearch")).1
                ++ (_execute_refine_report refineF
                    (tcs.filter fun tc => tc.name == "refine_draft_report")
                    state.supervisor_messages state.research_brief
                    state.draft_report).1)
              (_execute_research_calls researchF
                  (tcs.filter fun tc => tc.name == "ConductResearch")).2
              (if (tcs.filter fun tc => tc.name == "refine_draft_report").isEmpty
               then none
               else some (_execute_refine_report refineF
                  (tcs.filter fun tc => tc.name == "refine_draft_report")
                  state.supervisor_messages state.research_brief
                  state.draft_report).2))) := by
  rw [supervisor_tools_ai_eq thinkF researchF refineF false state c tcs hlast]
  by_cases hexit : _check_exit_criteria state.research_iterations tcs = true
  · rw [if_pos hexit]
    constructor
    · exact iff_of_true rfl ((_check_exit_criteria_iff _ _).mp hexit)
    · intro h
      exact absurd ((_check_exit_criteria_iff _ _).mp hexit) h
  · rw [if_neg hexit]
    constructor
    · refine iff_of_false (by simp) ?_
      intro h
      exact hexit ((_check_exit_criteria_iff _ _).mpr h)
    · intro _
      rfl

/-- Witness for C2's theorem: a decision with zero tool calls ends the run
with the accumulated notes and the brief. -/
theorem supervisor_tools_exit_iff_witness :
    supervisor_tools (fun _ => "") (fun _ => ⟨none, []⟩) (fun _ _ _ => "") false
        ⟨[.tool "note-1" "ConductResearch" "1", .ai "done" []], 3, "brief-w", "", [], []⟩
      = some (.toEnd ["note-1"] "brief-w") := by
  have h := supervisor_tools_exit_iff (fun _ => "") (fun _ => ⟨none, []⟩)
    (fun _ _ _ => "")
    ⟨[.tool "note-1" "ConductResearch" "1", .ai "done" []], 3, "brief-w", "", [], []⟩
    "done" [] rfl
  exact h.1.mpr (Or.inr (Or.inl rfl))

/-- C8: if dispatch raises, the step exits through the same notes-extraction
path as a criterion exit — the run ends with the notes from every tool-result
message plus the research brief, and no exception propagates (the step still
returns a command). -/
theorem supervisor_tools_exception_exit (thinkF : String → String)
    (researchF : String → ResearchResult) (refineF : String → String → String → String)
    (state : SupervisorState) (c : String) (tcs : List ToolCall)
    (hlast : state.supervisor_messages.getLast? = some (.ai c tcs)) :
    supervisor_tools thinkF researchF refineF true state
      = some (.toEnd (get_notes_from_tool_calls state.supervisor_messages)
          state.research_brief) := by
  rw [supervisor_tools_ai_eq thinkF researchF refineF true state c tcs hlast]
  by_cases hexit : _check_exit_criteria state.research_iterations tcs = true
  · rw [if_pos hexit]
  · rw [if_neg hexit]
    rfl

/-- Witness for C8's theorem: a pending `ConductResearch` call whose dispatch
raises still ends the run with the existing notes and the brief. -/
theorem supervisor_tools_exception_exit_witness :
    supervisor_tools (fun _ => "") (fun _ => ⟨none, []⟩) (fun _ _ _ => "") true
        ⟨[.tool "n0" "ConductResearch" "0",
          .ai "go" [⟨"ConductResearch", "topic", "1"⟩]], 2, "brief-x", "", [], []⟩
      = some (.toEnd ["n0"] "brief-x") :=
  supervisor_tools_exception_exit (fun _ => "") (fun _ => ⟨none, []⟩) (fun _ _ _ => "")
    ⟨[.tool "n0" "ConductResearch" "0",
      .ai "go" [⟨"ConductResearch", "topic", "1"⟩]], 2, "brief-x", "", [], []⟩
    "go" [⟨"ConductResearch", "topic", "1"⟩] rfl

/-- C3: each supervisor decision step increments the iteration count by
exactly one (so it never decreases); starting from 0, after `n` decision
steps the count is exactly `n`; and from a fresh state the loop always
terminates within `max_researcher_iterations` (15) decisions, whatever the
model decides and whether or not dispatch raises. -/
theorem supervisor_iteration_count (thinkF : String → String)
    (researchF : String → ResearchResult) (refineF : String → String → String → String)
    (decideF : SupervisorState → String × List ToolCall)
    (raisesF : SupervisorState → Bool) :
    (∀ state, (supervisor_step decideF state).research_iterations
        = state.research_iterations + 1)
    ∧ (∀ (n : ℕ) (state : SupervisorState), state.research_iterations = 0 →
        ((supervisor_step decideF)^[n] state).research_iterations = n)
    ∧ (∀ (fuel : ℕ) (state : SupervisorState), 1 ≤ fuel →
        max_researcher_iterations ≤ state.research_iterations + fuel →
        (run_supervisor thinkF researchF refineF decideF raisesF fuel state).isSome) := by
  have hstep : ∀ state, (supervisor_step decideF state).research_iterations
      = state.research_iterations + 1 := fun _ => rfl
  have hiter : ∀ (n : ℕ) (state : SupervisorState),
      ((supervisor_step decideF)^[n] state).research_iterations
        = state.research_iterations + n := by
    intro n
    induction n with
    | zero => intro state; rfl
    | succ k ih =>
      intro state
      rw [Function.iterate_succ_apply', hstep, ih]
      omega
  refine ⟨hstep, fun n state h0 => by rw [hiter, h0, Nat.zero_add], ?_⟩
  intro fuel
  induction fuel with
  | zero => intro state h1 _; exact absurd h1 (by omega)
  | succ f ih =>
    intro state _ h2
    have hlast : (supervisor_step decideF state).supervisor_messages.getLast?
        = some (.ai (decideF state).1 (decideF state).2) := by
      simp [supervisor_step, List.getLast?_concat]
    simp only [run_supervisor]
    rw [supervisor_tools_ai_eq thinkF researchF refineF
      (raisesF (supervisor_step decideF state)) (supervisor_step decideF state)
      (decideF state).1 (decideF state).2 hlast]
    by_cases hexit : _check_exit_criteria
        (supervisor_step decideF state).research_iterations (decideF state).2 = true
    · rw [if_pos hexit]
      rfl
    · rw [if_neg hexit]
      by_cases hr : raisesF (supervisor_step decideF state) = true
      · rw [if_pos hr]
        rfl
      · rw [if_neg hr]
        have hnotmax : ¬(max_researcher_iterations
            ≤ state.research_iterations + 1) :=
          fun hge => hexit ((_check_exit_criteria_iff _ _).mpr (Or.inl hge))
        have hf : 1 ≤ f := by
          unfold max_researcher_iterations at hnotmax h2
          omega
        have hb : max_researcher_iterations ≤ state.research_iterations + 1 + f := by
          unfold max_researcher_iterations at h2 ⊢
          omega
        exact ih _ hf hb

/-- Witness for C3's theorem: from a zeroed state, 4 decision steps give
iteration count 4, and a full run with 15 units of fuel terminates. -/
theorem supervisor_iteration_count_witness :
    ((supervisor_step (fun _ => ("", [])))^[4]
        ⟨[], 0, "", "", [], []⟩).research_iterations = 4
    ∧ (run_supervisor (fun _ => "") (fun _ => ⟨none, []⟩) (fun _ _ _ => "")
        (fun _ => ("", [])) (fun _ => false) 15 ⟨[], 0, "", "", [], []⟩).isSome := by
  have h := supervisor_iteration_count (fun _ => "") (fun _ => ⟨none, []⟩)
    (fun _ _ _ => "") (fun _ => ("", [])) (fun _ => false)
  exact ⟨h.2.1 4 ⟨[], 0, "", "", [], []⟩ rfl,
    h.2.2 15 ⟨[], 0, "", "", [], []⟩ (by omega) (by decide)⟩

/-! ## Sub-researcher agent tool execution (src/research_agent.py)

`tool_node` executes the tool calls of the latest researcher decision with
search-quota enforcement.  The two bound tools are `tavily_search` (oracle
`searchF`) and `think_tool` (oracle `thinkF`); a call to any other name hits
`tools_by_name[tool_name]` with a `KeyError`, modelled as `none`.  The quota
`max_searches` is `MAX_TAVILY_SEARCHES` (default 5, env-overridable). -/

/-- The warning observation synthesized for a skipped search
(research_agent.py lines 96-100), with the quota and the current counter
interpolated. -/
def tavily_limit_message (max_searches count : ℕ) : String :=
  "⚠️ Tavily search limit (" ++ toString max_searches ++ ") reached. "
    ++ "This search has been skipped. Please proceed with the information "
    ++ "gathered from previous searches (" ++ toString count
    ++ " searches completed)."

/-- Embeds the loop of `tool_node` (research_agent.py lines 76-138): walk the
tool calls, carrying the running `tavily_search_count`; a search at quota is
skipped with the warning observation and no increment, a search under quota
increments the counter and runs `searchF`, a `think_tool` call runs `thinkF`,
any other name raises `KeyError` (`none`).  Returns the observations in call
order and the final counter. -/
def tool_node_loop (searchF thinkF : String → String) (max_searches : ℕ) :
    List ToolCall → ℕ → Option (List String × ℕ)
  | [], count => some ([], count)
  | tc :: rest, count =>
    if tc.name = "tavily_search" then
      if max_searches ≤ count then
        (tool_node_loop searchF thinkF max_searches rest count).map
          (fun p => (tavily_limit_message max_searches count :: p.1, p.2))
      else
        (tool_node_loop searchF thinkF max_searches rest (count + 1)).map
          (fun p => (searchF tc.args :: p.1, p.2))
    else if tc.name = "think_tool" then
      (tool_node_loop searchF thinkF max_searches rest count).map
        (fun p => (thinkF tc.args :: p.1, p.2))
    else none

/-- C4: quota enforcement in `tool_node`.  A search call at quota is replaced
by the warning observation and does not move the counter; a search call under
quota runs the search and increments the counter by one; `think_tool` calls
always execute; the counter never exceeds the quota when it starts at or
under it; and concretely, with quota 5 and a batch of six search calls
starting from counter 0, the first five run, the sixth is skipped with the
quota warning, and the final counter is 5. -/
theorem tool_node_quota (searchF thinkF : String → String) (max_searches : ℕ) :
    (∀ (tc : ToolCall) (rest : List ToolCall) (count : ℕ),
        tc.name = "tavily_search" → max_searches ≤ count →
        tool_node_loop searchF thinkF max_searches (tc :: rest) count
          = (tool_node_loop searchF thinkF max_searches rest count).map
              (fun p => (tavily_limit_message max_searches count :: p.1, p.2)))
    ∧ (∀ (tc : ToolCall) (rest : List ToolCall) (count : ℕ),
        tc.name = "tavily_search" → count < max_searches →
        tool_node_loop searchF thinkF max_searches (tc :: rest) count
          = (tool_node_loop searchF thinkF max_searches rest (count + 1)).map
              (fun p => (searchF tc.args :: p.1, p.2)))
    ∧ (∀ (tc : ToolCall) (rest : List ToolCall) (count : ℕ),
        tc.name = "think_tool" →
        tool_node_loop searchF thinkF max_searches (tc :: rest) count
          = (tool_node_loop searchF thinkF max_searches rest count).map
              (fun p => (thinkF tc.args :: p.1, p.2)))
    ∧ (∀ (calls : List ToolCall) (count : ℕ) (obs : List String) (final : ℕ),
        tool_node_loop searchF thinkF max_searches calls count = some (obs, final) →
        count ≤ max_searches → final ≤ max_searches)
    ∧ tool_node_loop searchF thinkF 5
        (List.replicate 6 ⟨"tavily_search", "q", "id"⟩) 0
      = some ([searchF "q", searchF "q", searchF "q", searchF "q", searchF "q",
          tavily_limit_message 5 5], 5) := by
  refine ⟨?_, ?_, ?_, ?_, ?_⟩
  · intro tc rest count hname hq
    simp only [tool_node_loop]
    rw [if_pos hname, if_pos hq]
  · intro tc rest count hname hq
    simp only [tool_node_loop]
    rw [if_pos hname, if_neg (by omega)]
  · intro tc rest count hname
    simp only [tool_node_loop]
    rw [if_neg (by rw [hname]; decide), if_pos hname]
  · intro calls
    induction calls with
    | nil =>
      intro count obs final h hle
      simp only [tool_node_loop] at h
      cases h
      exact hle
    | cons tc rest ih =>
      intro count obs final h hle
      simp only [tool_node_loop] at h
      by_cases h1 : tc.name = "tavily_search"
      · rw [if_pos h1] at h
        by_cases h2 : max_searches ≤ count
        · rw [if_pos h2] at h
          rcases hmap : tool_node_loop searchF thinkF max_searches rest count with _ | p
          · rw [hmap] at h
            exact absurd h (by simp)
          · rw [hmap, Option.map_some'] at h
            have hfin : p.2 = final := congrArg Prod.snd (Option.some.inj h)
            exact hfin ▸ ih count p.1 p.2 (by rw [hmap]) hle
        · rw [if_neg h2] at h
          rcases hmap : tool_node_loop searchF thinkF max_searches rest (count + 1)
              with _ | p
          · rw [hmap] at h
            exact absurd h (by simp)
          · rw [hmap, Option.map_some'] at h
            have hfin : p.2 = final := congrArg Prod.snd (Option.some.inj h)
            exact hfin ▸ ih (count + 1) p.1 p.2 (by rw [hmap]) (by omega)
      · rw [if_neg h1] at h
        by_cases h3 : tc.name = "think_tool"
        · rw [if_pos h3] at h
          rcases hmap : tool_node_loop searchF thinkF max_searches rest count with _ | p
          · rw [hmap] at h
            exact absurd h (by simp)
          · rw [hmap, Option.map_some'] at h
            have hfin : p.2 = final := congrArg Prod.snd (Option.some.inj h)
            exact hfin ▸ ih count p.1 p.2 (by rw [hmap]) hle
        · rw [if_neg h3] at h
          cases h
  · rfl

/-- Witness for C4's theorem: at quota (counter 5 of 5), one more search call
is skipped with the warning observation and the counter stays 5. -/
theorem tool_node_quota_witness :
    tool_node_loop (fun _ => "result") (fun _ => "noted") 5
        [⟨"tavily_search", "extra", "id6"⟩] 5
      = some ([tavily_limit_message 5 5], 5) := by
  rw [(tool_node_quota (fun _ => "result") (fun _ => "noted") 5).1
    ⟨"tavily_search", "extra", "id6"⟩ [] 5 rfl (by omega)]
  rfl

/-! ## Report cleaning (src/report_productor.py lines 32-59)

`_remove_invalid_urls_from_sources` locates the trailing Sources section and
filters its lines: a line containing any invalid URL is dropped, every other
line is kept verbatim.  The embedding below is that filter over the Sources
section's lines (the surrounding regex match and re-substitution carry the
section body to and from the report text unchanged).  Citation numbers are
read per line as the regex `\[(\d+)\]` does: the first bracketed digit run. -/

/-- The line filter of `_remove_invalid_urls_from_sources`
(report_productor.py lines 42-51): keep exactly the lines in which no
invalid URL occurs. -/
def _remove_invalid_urls_lines (lines invalid_urls : List String) : List String :=
  lines.filter fun line => !(invalid_urls.any fun invalid_url => str_contains line invalid_url)

/-- Digit run to number, most significant first. -/
def digits_to_nat (digits : List Char) : ℕ :=
  digits.foldl (fun acc c => acc * 10 + (c.toNat - '0'.toNat)) 0

/-- First occurrence of `[digits]` in a character list (regex `\[(\d+)\]`,
searched left to right). -/
def citation_num_chars : List Char → Option ℕ
  | [] => none
  | '[' :: rest =>
    let digits := rest.takeWhile Char.isDigit
    if digits.isEmpty then citation_num_chars rest
    else
      match rest.drop digits.length with
      | ']' :: _ => some (digits_to_nat digits)
      | _ => citation_num_chars rest
  | _ :: rest => citation_num_chars rest

/-- The citation number of one Sources line, if the line carries one. -/
def citation_num (line : String) : Option ℕ :=
  citation_num_chars line.data

/-- The citation numbers of a Sources section, in line order. -/
def sources_citation_nums (lines : List String) : List ℕ :=
  lines.filterMap citation_num

/-- The claim's property of a citation-number sequence: gapless and ascending
from 1, i.e. `[1, 2, …, k]`. -/
def gapless_from_one (ns : List ℕ) : Prop :=
  ns = List.range' 1 ns.length

/-- C7 (amended): the cleaning step removes exactly the Sources lines that
contain an invalid URL and keeps the rest verbatim, so the surviving citation
numbers are a subsequence of the original ones — still ascending if the
original numbering was, but **not renumbered**, so gaps remain where lines
were removed (renumbering is delegated to the downstream model prompt). -/
theorem remove_invalid_urls_sources (lines invalid_urls : List String) :
    (∀ line, line ∈ _remove_invalid_urls_lines lines invalid_urls ↔
        line ∈ lines
          ∧ (invalid_urls.any fun invalid_url => str_contains line invalid_url) = false)
    ∧ List.Sublist (_remove_invalid_urls_lines lines invalid_urls) lines
    ∧ List.Sublist
        (sources_citation_nums (_remove_invalid_urls_lines lines invalid_urls))
        (sources_citation_nums lines)
    ∧ (List.Pairwise (· < ·) (sources_citation_nums lines) →
        List.Pairwise (· < ·)
          (sources_citation_nums (_remove_invalid_urls_lines lines invalid_urls))) := by
  have hsub : List.Sublist (_remove_invalid_urls_lines lines invalid_urls) lines :=
    List.filter_sublist lines
  have hnums : List.Sublist
      (sources_citation_nums (_remove_invalid_urls_lines lines invalid_urls))
      (sources_citation_nums lines) := List.Sublist.filterMap citation_num hsub
  refine ⟨?_, hsub, hnums, fun hp => hp.sublist hnums⟩
  intro line
  simp [_remove_invalid_urls_lines, List.mem_filter]

/-- C7 counterexample: removing the invalid source `[1]` leaves the Sources
section numbered `[2]` alone — not a gapless sequence starting at 1; the
cleaning step does not renumber. -/
theorem remove_invalid_urls_claim_counterexample :
    sources_citation_nums (_remove_invalid_urls_lines
        ["[1] A: http://a.example", "[2] B: http://b.example"] ["http://a.example"])
      = [2]
    ∧ ¬gapless_from_one (sources_citation_nums (_remove_invalid_urls_lines
        ["[1] A: http://a.example", "[2] B: http://b.example"] ["http://a.example"])) := by
  constructor
  · decide
  · unfold gapless_from_one
    decide
